import Mathlib

/-!
Verification of the venom RADIUS and DNS protocol executors.

The Go sources (`executors/radius/radius.go`, `executors/dns/dns.go`) are
shallowly embedded: each `Run` is a pure function of the decoded executor
configuration together with an oracle describing what the network exchange
would return and what the wall clock would measure.  Effects that matter to
the specification (whether a packet was sent, which messages went over UDP
and TCP) are recorded in an explicit trace structure.  Go's
`(interface{}, error)` return is `Except String Result`: `.error` is the
non-nil Go error, `.ok` the nil-error result.
-/

/-- A JSON-like value tree, the target of the Go `map[string]interface{}`
normalisation performed by both executors. -/
inductive Json where
  | str : String → Json
  | int : Int → Json
  | bool : Bool → Json
  | null : Json
  | arr : List Json → Json
  | obj : List (String × Json) → Json

/-- Go map assignment `m[k] = v` on an association list: replaces the value
of an existing key, otherwise appends the binding. -/
def setKey (m : List (String × Json)) (k : String) (v : Json) : List (String × Json) :=
  match m with
  | [] => [(k, v)]
  | (k2, v2) :: rest =>
    if k2 = k then (k, v) :: rest else (k2, v2) :: setKey rest k v

/-- `true` exactly on the `.error` constructor, i.e. Go's `err != nil`. -/
def isErr {ε α : Type} : Except ε α → Bool
  | .error _ => true
  | .ok _ => false

/-- UTF-8 encoding of one character, as byte values. -/
def utf8Bytes (c : Char) : List Nat :=
  let n := c.toNat
  if n < 128 then [n]
  else if n < 2048 then [192 + n / 64, 128 + n % 64]
  else if n < 65536 then [224 + n / 4096, 128 + (n / 64) % 64, 128 + n % 64]
  else [240 + n / 262144, 128 + (n / 4096) % 64, 128 + (n / 64) % 64, 128 + n % 64]

/-- The byte sequence of Go's `[]byte(s)` — the UTF-8 bytes of the string. -/
def goStringBytes (s : String) : List Nat :=
  s.toList.flatMap utf8Bytes

/-- Go `strconv.Atoi`: optional sign, decimal digits only, must fit in a
signed 64-bit integer; `none` is Atoi's non-nil error. -/
def atoi (s : String) : Option Int :=
  let digits : List Char → Option Int := fun ds =>
    if ds.isEmpty then none
    else if ds.all Char.isDigit then
      some ((ds.foldl (fun a c => a * 10 + (c.toNat - 48)) 0 : Nat) : Int)
    else none
  let signed : Option Int :=
    match s.toList with
    | '+' :: rest => digits rest
    | '-' :: rest => (digits rest).map (fun n => -n)
    | l => digits l
  match signed with
  | none => none
  | some v => if -(2 ^ 63) ≤ v ∧ v ≤ 2 ^ 63 - 1 then some v else none

/-- Equality of `Except` values is decidable componentwise. -/
instance exceptDecEq {ε α : Type} [DecidableEq ε] [DecidableEq α] :
    DecidableEq (Except ε α)
  | .error x, .error y =>
    if h : x = y then .isTrue (by rw [h]) else .isFalse (by simp [h])
  | .error _, .ok _ => .isFalse (by simp)
  | .ok _, .error _ => .isFalse (by simp)
  | .ok x, .ok y =>
    if h : x = y then .isTrue (by rw [h]) else .isFalse (by simp [h])

/-- Split a character list at every dot. -/
def splitOnDot : List Char → List (List Char)
  | [] => [[]]
  | c :: rest =>
    match splitOnDot rest with
    | [] => [[]]
    | h :: t => if c = '.' then [] :: h :: t else (c :: h) :: t

/-- Modelled from the spec: parsing of a dotted-decimal IPv4 string into its
4 bytes (what §4.2 says the RADIUS executor does for the IP-address value
kind; the Go code under `src/` instead passes the raw string bytes). -/
def specDottedDecimalBytes (s : String) : Option (List Nat) :=
  let octet : List Char → Option Nat := fun p =>
    if p ≠ [] ∧ p.all Char.isDigit then
      let n := p.foldl (fun a c => a * 10 + (c.toNat - 48)) 0
      if n ≤ 255 then some n else none
    else none
  match (splitOnDot s.toList).mapM octet with
  | some l => if l.length = 4 then some l else none
  | none => none

namespace Radius

/-- `radius.Executor`: the decoded step configuration.  The Go
`map[string]string` attribute bag is embedded as an association list in the
order the Go `range` loop visits it. -/
structure Executor where
  Server : String
  Secret : String
  Code : String
  Timeout : Int
  Attributes : List (String × String)
deriving DecidableEq, Repr

/-- The encoded value of one RADIUS attribute, by value kind: raw string
setter, raw byte-slice setter, integer setter, enumeration setter. -/
inductive AttrVal where
  | str : String → AttrVal
  | bytes : List Nat → AttrVal
  | int : Int → AttrVal
  | enum : Nat → AttrVal
deriving DecidableEq, Repr

/-- The `Service-Type` enumeration switch inside `addAttribute`. -/
def serviceTypeCode (value : String) : Option Nat :=
  match value with
  | "Login-User" => some 1
  | "Framed-User" => some 2
  | "Callback-Login-User" => some 3
  | "Callback-Framed-User" => some 4
  | "Outbound-User" => some 5
  | "Administrative-User" => some 6
  | "NAS-Prompt-User" => some 7
  | "Call-Check-User" => some 8
  | "Callback-Administrative-User" => some 9
  | _ => none

/-- The `Framed-Protocol` enumeration switch inside `addAttribute`. -/
def framedProtocolCode (value : String) : Option Nat :=
  match value with
  | "PPP" => some 1
  | "SLIP" => some 2
  | "ARAP" => some 3
  | "Gandalf" => some 4
  | "Xylogics" => some 5
  | "X.75-Synchronous" => some 6
  | _ => none

/-- The `Framed-Routing` enumeration switch inside `addAttribute`. -/
def framedRoutingCode (value : String) : Option Nat :=
  match value with
  | "None" => some 0
  | "Broadcast" => some 1
  | "Listen" => some 2
  | "Broadcast-Listen" => some 3
  | _ => none

/-- The `Termination-Action` enumeration switch inside `addAttribute`. -/
def terminationActionCode (value : String) : Option Nat :=
  match value with
  | "Default" => some 0
  | "RADIUS-Request" => some 1
  | _ => none

/-- The `Acct-Status-Type` enumeration switch inside `addAttribute`. -/
def acctStatusTypeCode (value : String) : Option Nat :=
  match value with
  | "Start" => some 1
  | "Stop" => some 2
  | "Interim-Update" => some 3
  | "Accounting-On" => some 7
  | "Accounting-Off" => some 8
  | _ => none

/-- The `Acct-Authentic` enumeration switch inside `addAttribute`. -/
def acctAuthenticCode (value : String) : Option Nat :=
  match value with
  | "RADIUS" => some 1
  | "Local" => some 2
  | "Remote" => some 3
  | _ => none

/-- The `Acct-Terminate-Cause` enumeration switch inside `addAttribute`. -/
def acctTerminateCauseCode (value : String) : Option Nat :=
  match value with
  | "User-Request" => some 1
  | "Lost-Carrier" => some 2
  | "Lost-Service" => some 3
  | "Idle-Timeout" => some 4
  | "Session-Timeout" => some 5
  | "Admin-Reset" => some 6
  | "Admin-Reboot" => some 7
  | "Port-Error" => some 8
  | "NAS-Error" => some 9
  | "NAS-Request" => some 10
  | "NAS-Reboot" => some 11
  | "Port-Unneeded" => some 12
  | "Port-Preempted" => some 13
  | "Port-Suspended" => some 14
  | "Service-Unavailable" => some 15
  | "Callback" => some 16
  | "User-Error" => some 17
  | "Host-Request" => some 18
  | _ => none

/-- Shared shape of the integer-valued branches of `addAttribute`:
`strconv.Atoi` then the setter, else `"invalid <name> value: <value>"`. -/
def intAttr (label value : String) : Except String AttrVal :=
  match atoi value with
  | some n => .ok (.int n)
  | none => .error ("invalid " ++ label ++ " value: " ++ value)

/-- Shared shape of the enumeration branches of `addAttribute`: look the
value up in the closed vocabulary, else `"unsupported <name>: <value>"`. -/
def enumAttr (label : String) (table : String → Option Nat) (value : String) :
    Except String AttrVal :=
  match table value with
  | some n => .ok (.enum n)
  | none => .error ("unsupported " ++ label ++ ": " ++ value)

/-- `addAttribute` from `radius.go`: resolves the attribute name and encodes
the value; `.error` is the function's non-nil error.  The IP-address-style
branches pass the raw `[]byte(value)` string bytes, exactly as the Go code
does. -/
def addAttribute (name value : String) : Except String AttrVal :=
  match name with
  | "User-Name" => .ok (.str value)
  | "User-Password" => .ok (.str value)
  | "NAS-IP-Address" => .ok (.bytes (goStringBytes value))
  | "NAS-Port" => intAttr "NAS-Port" value
  | "Service-Type" => enumAttr "Service-Type" serviceTypeCode value
  | "Framed-Protocol" => enumAttr "Framed-Protocol" framedProtocolCode value
  | "Framed-IP-Address" => .ok (.bytes (goStringBytes value))
  | "Framed-IP-Netmask" => .ok (.bytes (goStringBytes value))
  | "Framed-Routing" => enumAttr "Framed-Routing" framedRoutingCode value
  | "Filter-Id" => .ok (.str value)
  | "Framed-MTU" => intAttr "Framed-MTU" value
  | "Reply-Message" => .ok (.str value)
  | "Callback-Number" => .ok (.str value)
  | "Callback-Id" => .ok (.str value)
  | "Framed-Route" => .ok (.str value)
  | "Framed-IPX-Network" => .ok (.bytes (goStringBytes value))
  | "State" => .ok (.str value)
  | "Class" => .ok (.str value)
  | "Session-Timeout" => intAttr "Session-Timeout" value
  | "Idle-Timeout" => intAttr "Idle-Timeout" value
  | "Termination-Action" => enumAttr "Termination-Action" terminationActionCode value
  | "Called-Station-Id" => .ok (.str value)
  | "Calling-Station-Id" => .ok (.str value)
  | "NAS-Identifier" => .ok (.str value)
  | "Proxy-State" => .ok (.str value)
  | "Login-LAT-Service" => .ok (.str value)
  | "Login-LAT-Node" => .ok (.str value)
  | "Login-LAT-Group" => .ok (.str value)
  | "Framed-AppleTalk-Zone" => .ok (.str value)
  | "Acct-Status-Type" => enumAttr "Acct-Status-Type" acctStatusTypeCode value
  | "Acct-Session-Id" => .ok (.str value)
  | "Acct-Authentic" => enumAttr "Acct-Authentic" acctAuthenticCode value
  | "Acct-Session-Time" => intAttr "Acct-Session-Time" value
  | "Acct-Input-Octets" => intAttr "Acct-Input-Octets" value
  | "Acct-Output-Octets" => intAttr "Acct-Output-Octets" value
  | "Acct-Input-Packets" => intAttr "Acct-Input-Packets" value
  | "Acct-Output-Packets" => intAttr "Acct-Output-Packets" value
  | "Acct-Terminate-Cause" => enumAttr "Acct-Terminate-Cause" acctTerminateCauseCode value
  | "Acct-Multi-Session-Id" => .ok (.str value)
  | "Acct-Link-Count" => intAttr "Acct-Link-Count" value
  | _ => .error ("unsupported attribute: " ++ name)

/-- The 14-entry packet-code switch in `Run`, with the `layeh.com/radius`
numeric codes. -/
def codeOfString (c : String) : Option Nat :=
  match c with
  | "Access-Request" => some 1
  | "Access-Accept" => some 2
  | "Access-Reject" => some 3
  | "Accounting-Request" => some 4
  | "Accounting-Response" => some 5
  | "Access-Challenge" => some 11
  | "Status-Server" => some 12
  | "Status-Client" => some 13
  | "Disconnect-Request" => some 40
  | "Disconnect-ACK" => some 41
  | "Disconnect-NAK" => some 42
  | "CoA-Request" => some 43
  | "CoA-ACK" => some 44
  | "CoA-NAK" => some 45
  | _ => none

/-- `radius.Code.String()` of the library, used for `result.Code`. -/
def codeName (n : Nat) : String :=
  match n with
  | 1 => "Access-Request"
  | 2 => "Access-Accept"
  | 3 => "Access-Reject"
  | 4 => "Accounting-Request"
  | 5 => "Accounting-Response"
  | 11 => "Access-Challenge"
  | 12 => "Status-Server"
  | 13 => "Status-Client"
  | 40 => "Disconnect-Request"
  | 41 => "Disconnect-ACK"
  | 42 => "Disconnect-NAK"
  | 43 => "CoA-Request"
  | 44 => "CoA-ACK"
  | 45 => "CoA-NAK"
  | _ => "Code(" ++ toString n ++ ")"

/-- The 14 packet-code names accepted by the switch in `Run`. -/
def supportedCodes : List String :=
  ["Access-Request", "Access-Accept", "Access-Reject", "Accounting-Request",
   "Accounting-Response", "Access-Challenge", "Status-Server", "Status-Client",
   "Disconnect-Request", "Disconnect-ACK", "Disconnect-NAK", "CoA-Request",
   "CoA-ACK", "CoA-NAK"]

/-- The assembled outbound packet: `radius.New(code, secret)` plus the
attributes added by the loop. -/
structure Packet where
  code : Nat
  secret : String
  attrs : List (String × AttrVal)
deriving DecidableEq, Repr

/-- The `result.Request` map: server, code and the echoed attribute map. -/
structure Request where
  server : String
  code : String
  attributes : List (String × String)
deriving DecidableEq, Repr

/-- `radius.Result`: the step result.  Go nil maps/interfaces are `none`. -/
structure Result where
  Systemout : String := ""
  SystemoutJSON : Option Json := none
  Systemerr : String := ""
  SystemerrJSON : Option Json := none
  Err : String := ""
  Code : String := ""
  TimeSeconds : Rat := 0
  Attributes : Option (List (String × String)) := none
  Request : Option Request := none

/-- What `radius.Exchange` would return: the decoded response packet, with
the three well-known reply attributes as read by the `_GetString` helpers
(empty string when absent). -/
structure Response where
  Code : Nat
  UserName : String
  ReplyMessage : String
  AcctSessionID : String
deriving DecidableEq, Repr

/-- Execution trace of one `Run` invocation: the returned
`(interface{}, error)` pair and the packet handed to `radius.Exchange`
(`none` when no packet was sent). -/
structure Trace where
  outcome : Except String Result
  sent : Option Packet

/-- The attribute loop of `Run`: add each attribute in iteration order,
stopping at the first failure with the offending name and its error. -/
def addAttributes : List (String × String) → Except (String × String) (List (String × AttrVal))
  | [] => .ok []
  | (n, v) :: rest =>
    match addAttribute n v with
    | .error msg => .error (n, msg)
    | .ok a =>
      match addAttributes rest with
      | .error e => .error e
      | .ok l => .ok ((n, a) :: l)

/-- The defaulting block at the top of `Run`. -/
def applyDefaults (e : Executor) : Executor :=
  { e with
    Server := if e.Server = "" then "localhost:1812" else e.Server
    Secret := if e.Secret = "" then "secret" else e.Secret
    Code := if e.Code = "" then "Access-Request" else e.Code
    Timeout := if e.Timeout = 0 then 5 else e.Timeout }

/-- The `result.Systemout` string built from the response code name and the
extracted attribute list. -/
def systemoutOf (codeStr : String) (attrs : List (String × String)) : String :=
  let base := "RADIUS Response: " ++ codeStr
  if attrs.length > 0 then
    attrs.foldl (fun acc p => acc ++ "\n  " ++ p.1 ++ ": " ++ p.2) (base ++ "\nAttributes:")
  else base

/-- `Run` after a successful `mapstructure.Decode`, as a function of the
decoded configuration, the outcome `radius.Exchange` would produce, and the
elapsed seconds the executed `time.Since(start)` call would measure. -/
def runDecoded (e0 : Executor) (net : Except String Response) (elapsed : Rat) : Trace :=
  let e := applyDefaults e0
  match codeOfString e.Code with
  | none => ⟨.error ("unsupported RADIUS code: " ++ e.Code), none⟩
  | some code =>
    match addAttributes e.Attributes with
    | .error (n, msg) =>
      ⟨.ok { Err := "failed to add attribute " ++ n ++ ": " ++ msg }, none⟩
    | .ok attrs =>
      let packet : Packet := ⟨code, e.Secret, attrs⟩
      let request : Request := ⟨e.Server, e.Code, e.Attributes⟩
      match net with
      | .error msg =>
        ⟨.ok { Request := some request, Err := msg, TimeSeconds := elapsed }, some packet⟩
      | .ok resp =>
        let codeStr := codeName resp.Code
        let outAttrs :=
          (if resp.UserName ≠ "" then [("User-Name", resp.UserName)] else []) ++
          (if resp.ReplyMessage ≠ "" then [("Reply-Message", resp.ReplyMessage)] else []) ++
          (if resp.AcctSessionID ≠ "" then [("Acct-Session-Id", resp.AcctSessionID)] else [])
        ⟨.ok { Request := some request
               Code := codeStr
               Attributes := some outAttrs
               Systemout := systemoutOf codeStr outAttrs
               SystemoutJSON := some (.obj [("code", .str codeStr),
                 ("attributes", .obj (outAttrs.map (fun p => (p.1, .str p.2))))])
               TimeSeconds := elapsed }, some packet⟩

/-- Full `Run`: `mapstructure.Decode` is external library code acting on an
opaque map, so its outcome is a parameter; a decode failure returns the
error with no result, otherwise `runDecoded` executes. -/
def run (decoded : Except String Executor) (net : Except String Response)
    (elapsed : Rat) : Trace :=
  match decoded with
  | .error msg => ⟨.error msg, none⟩
  | .ok e => runDecoded e net elapsed

end Radius

namespace Dns

/-- `dns.Executor`: the decoded step configuration. -/
structure Executor where
  Server : String
  Query : String
  QType : String
  Timeout : Int
deriving DecidableEq, Repr

/-- `dns.Result`: the step result.  Go nil interfaces are `none`. -/
structure Result where
  Query : String := ""
  QType : String := ""
  Server : String := ""
  RCode : String := ""
  Message : Option Json := none
  Systemout : String := ""
  SystemoutJSON : Option Json := none
  Systemerr : String := ""
  SystemerrJSON : Option Json := none
  Err : String := ""
  TimeSeconds : Rat := 0

/-- `stringToQType` from `dns.go`, with the `miekg/dns` numeric type codes;
`.error` is the function's non-nil error. -/
def stringToQType (qtype : String) : Except String Nat :=
  match qtype with
  | "A" => .ok 1
  | "AAAA" => .ok 28
  | "MX" => .ok 15
  | "TXT" => .ok 16
  | "CNAME" => .ok 5
  | "NS" => .ok 2
  | "PTR" => .ok 12
  | "SOA" => .ok 6
  | "SRV" => .ok 33
  | "CAA" => .ok 257
  | "ANY" => .ok 255
  | _ => .error ("unsupported DNS record type: " ++ qtype)

/-- The 11 record-type names accepted by `stringToQType`. -/
def supportedQTypes : List String :=
  ["A", "AAAA", "MX", "TXT", "CNAME", "NS", "PTR", "SOA", "SRV", "CAA", "ANY"]

/-- `dns.Fqdn`: make the query name fully qualified by appending a trailing
dot when it is not already present. -/
def fqdn (s : String) : String :=
  if s.endsWith "." then s else s ++ "."

/-- `dns.RcodeToString` of the `miekg/dns` library; a Go map lookup of a
missing key yields the zero string. -/
def rcodeToString (n : Nat) : String :=
  match n with
  | 0 => "NOERROR"
  | 1 => "FORMERR"
  | 2 => "SERVFAIL"
  | 3 => "NXDOMAIN"
  | 4 => "NOTIMP"
  | 5 => "REFUSED"
  | 6 => "YXDOMAIN"
  | 7 => "YXRRSET"
  | 8 => "NXRRSET"
  | 9 => "NOTAUTH"
  | 10 => "NOTZONE"
  | _ => ""

/-- `dns.TypeToString` of the `miekg/dns` library, restricted to the types
this executor can emit or receive in its table; missing keys yield "". -/
def typeToString (n : Nat) : String :=
  match n with
  | 1 => "A"
  | 2 => "NS"
  | 5 => "CNAME"
  | 6 => "SOA"
  | 12 => "PTR"
  | 15 => "MX"
  | 16 => "TXT"
  | 28 => "AAAA"
  | 33 => "SRV"
  | 255 => "ANY"
  | 257 => "CAA"
  | _ => ""

/-- `dns.ClassToString` of the `miekg/dns` library; missing keys yield "". -/
def classToString (n : Nat) : String :=
  match n with
  | 1 => "IN"
  | 3 => "CH"
  | 4 => "HS"
  | 254 => "NONE"
  | 255 => "ANY"
  | _ => ""

/-- `dns.OpcodeToString` of the `miekg/dns` library; missing keys yield "". -/
def opcodeToString (n : Nat) : String :=
  match n with
  | 0 => "QUERY"
  | 1 => "IQUERY"
  | 2 => "STATUS"
  | 4 => "NOTIFY"
  | 5 => "UPDATE"
  | _ => ""

/-- One entry of `msg.Question`. -/
structure Question where
  Name : String
  Qtype : Nat
  Qclass : Nat
deriving DecidableEq, Repr

/-- The common header of a resource record (`rr.Header()`). -/
structure RRHeader where
  Name : String
  Rrtype : Nat
  Class : Nat
  Ttl : Nat
deriving DecidableEq, Repr

/-- The type-specific payload of a resource record, one case per arm of the
`rrToJSON` type switch; `other` is any record type without a specific case. -/
inductive RRData where
  | a (address : String)
  | aaaa (address : String)
  | mx (preference : Nat) (mx : String)
  | txt (txt : List String)
  | cname (target : String)
  | ns (ns : String)
  | ptr (ptr : String)
  | soa (ns mbox : String) (serial refresh retr expire minttl : Nat)
  | srv (priority weight port : Nat) (target : String)
  | caa (flag : Nat) (tag value : String)
  | other
deriving DecidableEq, Repr

/-- A decoded resource record: header, its `rr.String()` text form, and the
type-specific payload. -/
structure DnsRR where
  header : RRHeader
  text : String
  data : RRData
deriving DecidableEq, Repr

/-- `dns.Msg`: the fields of the response message that `Run` and
`dnsMessageToJSON` read. -/
structure Msg where
  Id : Nat
  Response : Bool
  Opcode : Nat
  Authoritative : Bool
  Truncated : Bool
  RecursionDesired : Bool
  RecursionAvailable : Bool
  Zero : Bool
  AuthenticatedData : Bool
  CheckingDisabled : Bool
  Rcode : Nat
  Question : List Question
  Answer : List DnsRR
  Ns : List DnsRR
  Extra : List DnsRR
deriving DecidableEq, Repr

/-- `rrToJSON` from `dns.go`: common fields, the string form under
`"value"`, then the type-specific fields; map assignment order is preserved
and a later assignment overwrites (the CAA arm overwrites `"value"`). -/
def rrToJSON (rr : DnsRR) : List (String × Json) :=
  let base : List (String × Json) :=
    [("name", .str rr.header.Name),
     ("type", .str (typeToString rr.header.Rrtype)),
     ("class", .str (classToString rr.header.Class)),
     ("ttl", .int rr.header.Ttl)]
  let withVal := setKey base "value" (.str rr.text)
  match rr.data with
  | .a address => setKey withVal "address" (.str address)
  | .aaaa address => setKey withVal "address" (.str address)
  | .mx preference mx =>
    setKey (setKey withVal "preference" (.int preference)) "mx" (.str mx)
  | .txt txt => setKey withVal "txt" (.arr (txt.map Json.str))
  | .cname target => setKey withVal "target" (.str target)
  | .ns ns => setKey withVal "ns" (.str ns)
  | .ptr ptr => setKey withVal "ptr" (.str ptr)
  | .soa ns mbox serial refresh retr expire minttl =>
    setKey (setKey (setKey (setKey (setKey (setKey (setKey withVal
      "ns" (.str ns)) "mbox" (.str mbox)) "serial" (.int serial))
      "refresh" (.int refresh)) "retry" (.int retr))
      "expire" (.int expire)) "minttl" (.int minttl)
  | .srv priority weight port target =>
    setKey (setKey (setKey (setKey withVal
      "priority" (.int priority)) "weight" (.int weight))
      "port" (.int port)) "target" (.str target)
  | .caa flag tag value =>
    setKey (setKey (setKey withVal
      "flag" (.int flag)) "tag" (.str tag)) "value" (.str value)
  | .other => withVal

/-- `dnsMessageToJSON` from `dns.go`: the message flags, response-code name
and the four record sections as a generic value tree.  The Go function has
no failing path — it always returns a nil error. -/
def dnsMessageToJSON (msg : Msg) : Except String Json :=
  .ok (.obj
    [("id", .int msg.Id),
     ("response", .bool msg.Response),
     ("opcode", .str (opcodeToString msg.Opcode)),
     ("authoritative", .bool msg.Authoritative),
     ("truncated", .bool msg.Truncated),
     ("recursion_desired", .bool msg.RecursionDesired),
     ("recursion_available", .bool msg.RecursionAvailable),
     ("zero", .bool msg.Zero),
     ("authenticated_data", .bool msg.AuthenticatedData),
     ("checking_disabled", .bool msg.CheckingDisabled),
     ("rcode", .str (rcodeToString msg.Rcode)),
     ("question", .arr (msg.Question.map (fun q => .obj
       [("name", .str q.Name),
        ("type", .str (typeToString q.Qtype)),
        ("class", .str (classToString q.Qclass))]))),
     ("answer", .arr (msg.Answer.map (fun rr => .obj (rrToJSON rr)))),
     ("authority", .arr (msg.Ns.map (fun rr => .obj (rrToJSON rr)))),
     ("additional", .arr (msg.Extra.map (fun rr => .obj (rrToJSON rr))))])

/-- The question message built by `m.SetQuestion(dns.Fqdn(e.Query), qType)`
with `RecursionDesired = true`; the random message identifier chosen by the
library is not modelled. -/
structure QMsg where
  name : String
  qtype : Nat
  recursionDesired : Bool
deriving DecidableEq, Repr

/-- What the network would answer: the outcome of the UDP exchange, the
outcome of the TCP exchange were it attempted (each a response message and
its round-trip time), and the elapsed seconds measured by the
`time.Since(start)` call that executes on the taken path. -/
structure Net where
  udp : Except String (Msg × Rat)
  tcp : Except String (Msg × Rat)
  elapsed : Rat

/-- Execution trace of one `Run` invocation: the returned
`(interface{}, error)` pair and the question messages handed to the UDP and
TCP exchanges (`none` when that exchange never happened). -/
structure Trace where
  outcome : Except String Result
  udpMsg : Option QMsg
  tcpMsg : Option QMsg

/-- The defaulting block of `Run`: record type defaults to `A`, timeout to
5 seconds. -/
def applyDefaults (e : Executor) : Executor :=
  { e with
    QType := if e.QType = "" then "A" else e.QType
    Timeout := if e.Timeout = 0 then 5 else e.Timeout }

/-- The `result.Systemout` text: query summary plus one line per answer
record (`%v` of the round-trip time is rendered as its decimal value). -/
def systemoutOf (query qtype server rcode : String) (rtt : Rat)
    (answers : List DnsRR) : String :=
  let base := "DNS Query: " ++ query ++ " " ++ qtype ++ "\nServer: " ++ server ++
    "\nRCode: " ++ rcode ++ "\nResponse Time: " ++ toString rtt ++ "\n"
  if answers.length > 0 then
    answers.foldl (fun acc rr => acc ++ "  " ++ rr.text ++ "\n") (base ++ "Answers:\n")
  else base

/-- The tail of `Run` after the response to use has been settled: record
elapsed time and the response-code name, convert the message to JSON
(soft-failing on a conversion error), and build the outputs. -/
def finishResult (r0 : Result) (e : Executor) (resp : Msg) (rtt elapsed : Rat) : Result :=
  let rcodeStr := rcodeToString resp.Rcode
  let r1 := { r0 with TimeSeconds := elapsed, RCode := rcodeStr }
  match dnsMessageToJSON resp with
  | .error msg => { r1 with Err := "failed to convert DNS message to JSON: " ++ msg }
  | .ok j =>
    { r1 with
      Message := some j
      SystemoutJSON := some j
      Systemout := systemoutOf e.Query e.QType e.Server rcodeStr rtt resp.Answer }

/-- `Run` after a successful `mapstructure.Decode`: mandatory-server check,
defaulting, record-type resolution, UDP exchange, the single TCP retry on
truncation with its three sub-outcomes, then result assembly. -/
def runDecoded (e0 : Executor) (net : Net) : Trace :=
  if e0.Server = "" then
    ⟨.error "server is mandatory for DNS executor", none, none⟩
  else
    let e := applyDefaults e0
    let r0 : Result := { Query := e.Query, QType := e.QType, Server := e.Server }
    match stringToQType e.QType with
    | .error msg =>
      ⟨.ok { r0 with Err := msg, TimeSeconds := net.elapsed }, none, none⟩
    | .ok qtype =>
      let m : QMsg := ⟨fqdn e.Query, qtype, true⟩
      match net.udp with
      | .error msg =>
        ⟨.ok { r0 with Err := msg, TimeSeconds := net.elapsed }, some m, none⟩
      | .ok (resp, rtt) =>
        if resp.Truncated then
          let mTCP : QMsg := ⟨fqdn e.Query, qtype, true⟩
          match net.tcp with
          | .error msg =>
            ⟨.ok (finishResult
              { r0 with Err := "UDP response truncated, TCP retry failed: " ++ msg }
              e resp rtt net.elapsed), some m, some mTCP⟩
          | .ok (tcpResp, tcpRtt) =>
            if tcpResp.Truncated then
              ⟨.ok (finishResult
                { r0 with
                  Err := "UDP response truncated, TCP retry also returned truncated response" }
                e resp rtt net.elapsed), some m, some mTCP⟩
            else
              ⟨.ok (finishResult r0 e tcpResp tcpRtt net.elapsed), some m, some mTCP⟩
        else
          ⟨.ok (finishResult r0 e resp rtt net.elapsed), some m, none⟩

/-- Full `Run`: `mapstructure.Decode` is external library code acting on an
opaque map, so its outcome is a parameter; a decode failure returns the
error with no result, otherwise `runDecoded` executes. -/
def run (decoded : Except String Executor) (net : Net) : Trace :=
  match decoded with
  | .error msg => ⟨.error msg, none, none⟩
  | .ok e => runDecoded e net

end Dns

/-! ## Helper lemmas -/

theorem stringToQType_of_not_mem (q : String) (h : q ∉ Dns.supportedQTypes) :
    Dns.stringToQType q = .error ("unsupported DNS record type: " ++ q) := by
  unfold Dns.stringToQType
  split
  all_goals simp_all [Dns.supportedQTypes]

theorem stringToQType_isOk_iff (q : String) :
    isErr (Dns.stringToQType q) = false ↔ q ∈ Dns.supportedQTypes := by
  constructor
  · intro h
    by_contra hmem
    rw [stringToQType_of_not_mem q hmem] at h
    simp [isErr] at h
  · intro h
    simp only [Dns.supportedQTypes, List.mem_cons, List.mem_singleton] at h
    rcases h with rfl | rfl | rfl | rfl | rfl | rfl | rfl | rfl | rfl | rfl | rfl | h
    all_goals first | rfl | simp_all

theorem codeOfString_of_not_mem (c : String) (h : c ∉ Radius.supportedCodes) :
    Radius.codeOfString c = none := by
  unfold Radius.codeOfString
  split
  all_goals simp_all [Radius.supportedCodes]

theorem codeOfString_isSome_iff (c : String) :
    (Radius.codeOfString c).isSome = true ↔ c ∈ Radius.supportedCodes := by
  constructor
  · intro h
    by_contra hmem
    rw [codeOfString_of_not_mem c hmem] at h
    simp at h
  · intro h
    simp only [Radius.supportedCodes, List.mem_cons, List.mem_singleton] at h
    rcases h with rfl | rfl | rfl | rfl | rfl | rfl | rfl | rfl | rfl | rfl | rfl | rfl | rfl | rfl | h
    all_goals first | rfl | simp_all

theorem codeOfString_none_iff (c : String) :
    Radius.codeOfString c = none ↔ c ∉ Radius.supportedCodes := by
  rw [← codeOfString_isSome_iff]
  cases Radius.codeOfString c <;> simp

theorem finishResult_eq (r0 : Dns.Result) (e : Dns.Executor) (resp : Dns.Msg) (rtt el : Rat) :
    ∃ j, Dns.dnsMessageToJSON resp = .ok j ∧
      Dns.finishResult r0 e resp rtt el =
        { r0 with
          TimeSeconds := el
          RCode := Dns.rcodeToString resp.Rcode
          Message := some j
          SystemoutJSON := some j
          Systemout := Dns.systemoutOf e.Query e.QType e.Server
            (Dns.rcodeToString resp.Rcode) rtt resp.Answer } :=
  ⟨_, rfl, rfl⟩

theorem dns_ok_of_server (e : Dns.Executor) (net : Dns.Net) (hs : ¬ e.Server = "") :
    ∃ r, (Dns.runDecoded e net).outcome = .ok r := by
  simp only [Dns.runDecoded, Dns.applyDefaults]
  rw [if_neg hs]
  repeat' split
  all_goals exact ⟨_, rfl⟩

theorem dns_isErr_iff (e : Dns.Executor) (net : Dns.Net) :
    isErr (Dns.runDecoded e net).outcome = true ↔ e.Server = "" := by
  constructor
  · intro h
    by_contra hs
    obtain ⟨r, hr⟩ := dns_ok_of_server e net hs
    rw [hr] at h
    simp [isErr] at h
  · intro h
    simp [Dns.runDecoded, h, isErr]

theorem radius_isErr_iff (e : Radius.Executor) (net : Except String Radius.Response) (el : Rat) :
    isErr (Radius.runDecoded e net el).outcome = true ↔
      Radius.codeOfString (if e.Code = "" then "Access-Request" else e.Code) = none := by
  simp only [Radius.runDecoded, Radius.applyDefaults]
  split
  next heq => simp_all [isErr]
  next c heq =>
    rw [heq]
    repeat' split
    all_goals simp [isErr]

theorem addAttributes_append_fail (pre rest : List (String × String)) (n v msg : String)
    (hpre : ∀ p ∈ pre, isErr (Radius.addAttribute p.1 p.2) = false)
    (hfail : Radius.addAttribute n v = .error msg) :
    Radius.addAttributes (pre ++ (n, v) :: rest) = .error (n, msg) := by
  induction pre with
  | nil => simp [Radius.addAttributes, hfail]
  | cons p ps ih =>
    obtain ⟨pn, pv⟩ := p
    have h1 : isErr (Radius.addAttribute pn pv) = false := hpre (pn, pv) (by simp)
    cases h2 : Radius.addAttribute pn pv with
    | error m => rw [h2] at h1; simp [isErr] at h1
    | ok a =>
      have h3 := ih (fun q hq => hpre q (List.mem_cons_of_mem _ hq))
      simp [Radius.addAttributes, h2, h3]

/-! ## Claim theorems -/

/-- C1: for both executors, a non-nil returned error arises exactly from a
step-descriptor decode failure, a missing DNS server, or a RADIUS
packet-code name that (after defaulting) is not one of the 14 supported
names; every other path returns a result with a nil error. -/
theorem C1_error_channel :
    (∀ (msg : String) (net : Except String Radius.Response) (el : Rat),
      (Radius.run (.error msg) net el).outcome = .error msg) ∧
    (∀ (e : Radius.Executor) (net : Except String Radius.Response) (el : Rat),
      isErr (Radius.runDecoded e net el).outcome = true ↔
        (if e.Code = "" then "Access-Request" else e.Code) ∉ Radius.supportedCodes) ∧
    (∀ (msg : String) (net : Dns.Net), (Dns.run (.error msg) net).outcome = .error msg) ∧
    (∀ (e : Dns.Executor) (net : Dns.Net),
      isErr (Dns.runDecoded e net).outcome = true ↔ e.Server = "") :=
  ⟨fun _ _ _ => rfl,
   fun e net el => (radius_isErr_iff e net el).trans (codeOfString_none_iff _),
   fun _ _ => rfl, dns_isErr_iff⟩

/-- C2 counterexample: with a truncated UDP response of rcode `NOERROR` and
a TCP retry that returns a truncated response of rcode `NXDOMAIN`, the
result keeps the UDP response (`RCode = "NOERROR"`), refuting the claim
that the TCP response is still used in that sub-outcome. -/
theorem C2_tcp_truncated_keeps_udp :
    ((Dns.runDecoded ⟨"127.0.0.1:53", "example.com", "A", 5⟩
        ⟨.ok (⟨1, true, 0, false, true, true, true, false, false, false, 0, [], [], [], []⟩, 1),
         .ok (⟨2, true, 0, false, true, true, true, false, false, false, 3, [], [], [], []⟩, 2),
         7⟩).outcome.map (fun r => (r.RCode, r.Err))) =
      .ok ("NOERROR", "UDP response truncated, TCP retry also returned truncated response") := by
  rfl

/-- C2 (amended): a truncated UDP response triggers exactly one TCP retry
with a freshly built question; a failed retry keeps the UDP response and
records both failures in `Result.Err`; a truncated TCP response records the
anomaly and the truncated UDP response is still used; a clean TCP retry
replaces the response and round-trip time with the TCP ones. -/
theorem C2_truncation_retry (e : Dns.Executor) (net : Dns.Net) (m : Dns.Msg)
    (rtt : Rat) (q : Nat)
    (hs : e.Server ≠ "")
    (hq : Dns.stringToQType (if e.QType = "" then "A" else e.QType) = .ok q)
    (hu : net.udp = .ok (m, rtt)) (ht : m.Truncated = true) :
    (Dns.runDecoded e net).tcpMsg = some ⟨Dns.fqdn e.Query, q, true⟩ ∧
    (∀ msg, net.tcp = .error msg → ∃ r,
      (Dns.runDecoded e net).outcome = .ok r ∧
      r.Err = "UDP response truncated, TCP retry failed: " ++ msg ∧
      r.RCode = Dns.rcodeToString m.Rcode ∧
      r.Message = (Dns.dnsMessageToJSON m).toOption ∧
      r.TimeSeconds = net.elapsed) ∧
    (∀ tm trtt, net.tcp = .ok (tm, trtt) → tm.Truncated = true → ∃ r,
      (Dns.runDecoded e net).outcome = .ok r ∧
      r.Err = "UDP response truncated, TCP retry also returned truncated response" ∧
      r.RCode = Dns.rcodeToString m.Rcode ∧
      r.Message = (Dns.dnsMessageToJSON m).toOption ∧
      r.TimeSeconds = net.elapsed) ∧
    (∀ tm trtt, net.tcp = .ok (tm, trtt) → tm.Truncated = false → ∃ r,
      (Dns.runDecoded e net).outcome = .ok r ∧
      r.Err = "" ∧
      r.RCode = Dns.rcodeToString tm.Rcode ∧
      r.Message = (Dns.dnsMessageToJSON tm).toOption ∧
      r.Systemout = Dns.systemoutOf e.Query (if e.QType = "" then "A" else e.QType)
        e.Server (Dns.rcodeToString tm.Rcode) trtt tm.Answer ∧
      r.TimeSeconds = net.elapsed) := by
  refine ⟨?_, ?_, ?_, ?_⟩
  · simp only [Dns.runDecoded, Dns.applyDefaults, hq, hu, if_neg hs, ht, if_true]
    cases htc : net.tcp with
    | error msg => rfl
    | ok p =>
      obtain ⟨tm, trtt⟩ := p
      by_cases htt : tm.Truncated = true
      · simp only [htt, if_true]
        try rfl
      · simp only [htt, if_false]
        try rfl
  · intro msg htc
    simp only [Dns.runDecoded, Dns.applyDefaults, hq, hu, if_neg hs, ht, if_true, htc]
    exact ⟨_, rfl, rfl, rfl, rfl, rfl⟩
  · intro tm trtt htc htt
    simp only [Dns.runDecoded, Dns.applyDefaults, hq, hu, if_neg hs, ht, if_true, htc, htt]
    exact ⟨_, rfl, rfl, rfl, rfl, rfl⟩
  · intro tm trtt htc htt
    simp only [Dns.runDecoded, Dns.applyDefaults, hq, hu, if_neg hs, ht, if_true, htc, htt,
      if_false]
    exact ⟨_, rfl, rfl, rfl, rfl, rfl, rfl⟩

/-- C2 witness: a concrete truncated UDP exchange whose TCP retry succeeds
cleanly; the result carries the TCP rcode, message and round-trip time. -/
theorem C2_truncation_retry_witness :
    ∃ r, (Dns.runDecoded ⟨"127.0.0.1:53", "example.com", "A", 5⟩
        ⟨.ok (⟨1, true, 0, false, true, true, true, false, false, false, 0, [], [], [], []⟩, 1),
         .ok (⟨2, true, 0, false, false, true, true, false, false, false, 3, [], [], [], []⟩, 2),
         7⟩).outcome = .ok r ∧
      r.Err = "" ∧
      r.RCode = Dns.rcodeToString 3 ∧
      r.Message = (Dns.dnsMessageToJSON
        ⟨2, true, 0, false, false, true, true, false, false, false, 3, [], [], [], []⟩).toOption ∧
      r.Systemout = Dns.systemoutOf "example.com" "A" "127.0.0.1:53"
        (Dns.rcodeToString 3) 2
        (⟨2, true, 0, false, false, true, true, false, false, false, 3, [], [], [], []⟩ : Dns.Msg).Answer ∧
      r.TimeSeconds = 7 :=
  (C2_truncation_retry ⟨"127.0.0.1:53", "example.com", "A", 5⟩
    ⟨.ok (⟨1, true, 0, false, true, true, true, false, false, false, 0, [], [], [], []⟩, 1),
     .ok (⟨2, true, 0, false, false, true, true, false, false, false, 3, [], [], [], []⟩, 2),
     7⟩
    ⟨1, true, 0, false, true, true, true, false, false, false, 0, [], [], [], []⟩ 1 1
    (by decide) rfl rfl rfl).2.2.2
    ⟨2, true, 0, false, false, true, true, false, false, false, 3, [], [], [], []⟩ 2 rfl rfl

/-- C3: when the attribute map contains a failing attribute (unsupported
name, unknown enumeration value, or non-numeric integer value), `Run`
aborts at the first failing attribute in iteration order, returns — with a
nil error — a result whose only populated field is an `Err` message naming
the offending attribute, and sends no packet. -/
theorem C3_attribute_failure_atomic (e : Radius.Executor)
    (net : Except String Radius.Response) (el : Rat)
    (pre rest : List (String × String)) (n v msg : String) (c : Nat)
    (hattrs : e.Attributes = pre ++ (n, v) :: rest)
    (hpre : ∀ p ∈ pre, isErr (Radius.addAttribute p.1 p.2) = false)
    (hfail : Radius.addAttribute n v = .error msg)
    (hcode : Radius.codeOfString (if e.Code = "" then "Access-Request" else e.Code) = some c) :
    Radius.runDecoded e net el =
      ⟨.ok { Err := "failed to add attribute " ++ n ++ ": " ++ msg }, none⟩ := by
  have hadd := addAttributes_append_fail pre rest n v msg hpre hfail
  rw [← hattrs] at hadd
  simp only [Radius.runDecoded, Radius.applyDefaults, hcode, hadd]

/-- C3 witness: a concrete attribute map whose second entry is unsupported;
the valid first entry is discarded, no packet is sent. -/
theorem C3_witness :
    Radius.runDecoded ⟨"", "", "", 0, [("User-Name", "u"), ("Invalid-Attribute", "v")]⟩
        (.error "x") 1 =
      ⟨.ok { Err := "failed to add attribute Invalid-Attribute: unsupported attribute: Invalid-Attribute" },
       none⟩ :=
  C3_attribute_failure_atomic
    ⟨"", "", "", 0, [("User-Name", "u"), ("Invalid-Attribute", "v")]⟩ (.error "x") 1
    [("User-Name", "u")] [] "Invalid-Attribute" "v"
    "unsupported attribute: Invalid-Attribute" 1 rfl (by decide) rfl rfl

/-- C4 counterexample: on the RADIUS attribute-encoding-failure exit path a
soft-failure result is returned with `TimeSeconds = 0` even though the
clock would have measured 1 second, refuting "elapsed time is recorded on
every exit path". -/
theorem C4_time_missing_on_attr_failure :
    ((Radius.runDecoded ⟨"", "", "", 0, [("Invalid-Attribute", "v")]⟩ (.error "x") 1).outcome.map
      (fun r => (r.Err.isEmpty, r.TimeSeconds))) = .ok (false, 0) := by
  rfl

/-- C4 (amended): elapsed time is recorded in `TimeSeconds` on every exit
path that returns a result, except the RADIUS attribute-encoding-failure
path, where `TimeSeconds` is left at zero. -/
theorem C4_time_recorded :
    (∀ (e : Dns.Executor) (net : Dns.Net) (r : Dns.Result),
      (Dns.runDecoded e net).outcome = .ok r → r.TimeSeconds = net.elapsed) ∧
    (∀ (e : Radius.Executor) (net : Except String Radius.Response) (el : Rat)
      (r : Radius.Result),
      (Radius.runDecoded e net el).outcome = .ok r →
      isErr (Radius.addAttributes e.Attributes) = false → r.TimeSeconds = el) ∧
    (∀ (e : Radius.Executor) (net : Except String Radius.Response) (el : Rat)
      (r : Radius.Result) (nm m : String),
      (Radius.runDecoded e net el).outcome = .ok r →
      Radius.addAttributes e.Attributes = .error (nm, m) → r.TimeSeconds = 0) := by
  refine ⟨?_, ?_, ?_⟩
  · intro e net r h
    simp only [Dns.runDecoded, Dns.applyDefaults] at h
    repeat' split at h
    all_goals simp only [Dns.finishResult, Dns.dnsMessageToJSON] at h
    all_goals simp at h
    all_goals try subst h
    all_goals simp_all
  · intro e net el r h hattr
    simp only [Radius.runDecoded, Radius.applyDefaults] at h
    repeat' split at h
    all_goals simp_all [isErr]
    all_goals try subst h
    all_goals simp_all
  · intro e net el r nm m h hattr
    simp only [Radius.runDecoded, Radius.applyDefaults] at h
    repeat' split at h
    all_goals simp_all [isErr]
    all_goals try subst h
    all_goals simp_all

/-- C4 witness: on the RADIUS transport-error path with a 2-second clock
reading, the returned result records `TimeSeconds = 2`. -/
theorem C4_time_recorded_witness :
    ({ Request := some ⟨"localhost:1812", "Access-Request", []⟩, Err := "x",
       TimeSeconds := 2 } : Radius.Result).TimeSeconds = 2 :=
  C4_time_recorded.2.1 ⟨"", "", "", 0, []⟩ (.error "x") 2
    { Request := some ⟨"localhost:1812", "Access-Request", []⟩, Err := "x",
      TimeSeconds := 2 }
    rfl rfl

/-- C5 counterexample: when attribute encoding fails, the returned
soft-failure result has an empty `Request`, refuting "recorded into
`Result.Request` regardless of outcome". -/
theorem C5_request_dropped_on_attr_failure :
    ((Radius.runDecoded ⟨"", "", "", 0, [("Invalid-Attribute", "v")]⟩ (.error "x") 1).outcome.map
      (fun r => (r.Err.isEmpty, r.Request))) = .ok (false, none) := by
  rfl

/-- C5 (amended): for every invocation that passes config decoding, code
resolution and attribute encoding, the fully-resolved request (server,
code, attribute map) is recorded into `Result.Request`, on the transport
error path as well as on success; when attribute encoding fails, `Request`
is left unset. -/
theorem C5_request_recorded (e : Radius.Executor) (net : Except String Radius.Response)
    (el : Rat) (c : Nat) (l : List (String × Radius.AttrVal))
    (hcode : Radius.codeOfString (if e.Code = "" then "Access-Request" else e.Code) = some c)
    (hattrs : Radius.addAttributes e.Attributes = .ok l) :
    ∃ r, (Radius.runDecoded e net el).outcome = .ok r ∧
      r.Request = some ⟨if e.Server = "" then "localhost:1812" else e.Server,
        if e.Code = "" then "Access-Request" else e.Code, e.Attributes⟩ := by
  simp only [Radius.runDecoded, Radius.applyDefaults, hcode, hattrs]
  cases net with
  | error msg => exact ⟨_, rfl, rfl⟩
  | ok resp => exact ⟨_, rfl, rfl⟩

/-- C5 witness: a concrete invocation whose exchange fails still records
the defaulted server, code and attribute map in `Result.Request`. -/
theorem C5_request_recorded_witness :
    ∃ r, (Radius.runDecoded ⟨"", "", "", 0, [("User-Name", "u")]⟩ (.error "x") 2).outcome
        = .ok r ∧
      r.Request = some ⟨"localhost:1812", "Access-Request", [("User-Name", "u")]⟩ :=
  C5_request_recorded ⟨"", "", "", 0, [("User-Name", "u")]⟩ (.error "x") 2 1
    [("User-Name", .str "u")] rfl rfl

/-- C6: the IP-address attributes pass the raw UTF-8 bytes of the string
value to the setter — for "192.168.1.1" the 11 ASCII bytes, not the 4
dotted-decimal octets the spec (and the code's own comments) describe. -/
theorem C6_ip_attribute_raw_bytes :
    Radius.addAttribute "NAS-IP-Address" "192.168.1.1" =
      .ok (.bytes (goStringBytes "192.168.1.1")) ∧
    goStringBytes "192.168.1.1" = [49, 57, 50, 46, 49, 54, 56, 46, 49, 46, 49] ∧
    (goStringBytes "192.168.1.1").length = 11 ∧
    specDottedDecimalBytes "192.168.1.1" = some [192, 168, 1, 1] ∧
    Radius.addAttribute "Framed-IP-Address" "192.168.1.1" =
      .ok (.bytes (goStringBytes "192.168.1.1")) ∧
    Radius.addAttribute "Framed-IP-Netmask" "255.255.255.0" =
      .ok (.bytes (goStringBytes "255.255.255.0")) :=
  ⟨rfl, by decide, by decide, by decide, rfl, rfl⟩

/-- C7: a record-type name resolves exactly when it is one of the 11 table
entries; any other non-empty name makes `Run` return a nil error and a
result whose `Err` names the unsupported type, with no network exchange. -/
theorem C7_qtype_table :
    (∀ q : String, isErr (Dns.stringToQType q) = false ↔ q ∈ Dns.supportedQTypes) ∧
    (∀ (e : Dns.Executor) (net : Dns.Net), e.Server ≠ "" → e.QType ≠ "" →
      e.QType ∉ Dns.supportedQTypes →
      Dns.runDecoded e net =
        ⟨.ok { Query := e.Query, QType := e.QType, Server := e.Server,
               Err := "unsupported DNS record type: " ++ e.QType,
               TimeSeconds := net.elapsed }, none, none⟩) := by
  refine ⟨stringToQType_isOk_iff, ?_⟩
  intro e net hs hne hmem
  have hq : Dns.stringToQType e.QType = .error ("unsupported DNS record type: " ++ e.QType) :=
    stringToQType_of_not_mem e.QType hmem
  simp [Dns.runDecoded, Dns.applyDefaults, hs, hne, hq]

/-- C7 witness: the record type "INVALID" produces the soft failure with no
exchange attempted. -/
theorem C7_qtype_table_witness :
    Dns.runDecoded ⟨"8.8.8.8:53", "example.com", "INVALID", 0⟩ ⟨.error "x", .error "y", 2⟩
      = ⟨.ok { Query := "example.com", QType := "INVALID", Server := "8.8.8.8:53",
               Err := "unsupported DNS record type: INVALID", TimeSeconds := 2 }, none, none⟩ :=
  C7_qtype_table.2 ⟨"8.8.8.8:53", "example.com", "INVALID", 0⟩ ⟨.error "x", .error "y", 2⟩
    (by decide) (by decide) (by decide)

/-- C8: an empty (or absent, decoded as empty) server field makes `Run`
return the non-nil error "server is mandatory for DNS executor", with no
result and no exchange. -/
theorem C8_dns_server_mandatory (e : Dns.Executor) (net : Dns.Net)
    (h : e.Server = "") :
    Dns.run (.ok e) net = ⟨.error "server is mandatory for DNS executor", none, none⟩ := by
  simp [Dns.run, Dns.runDecoded, h]

/-- C8 witness: the concrete configuration with an empty server. -/
theorem C8_dns_server_mandatory_witness :
    Dns.run (.ok ⟨"", "example.com", "A", 0⟩) ⟨.error "x", .error "y", 1⟩
      = ⟨.error "server is mandatory for DNS executor", none, none⟩ :=
  C8_dns_server_mandatory ⟨"", "example.com", "A", 0⟩ ⟨.error "x", .error "y", 1⟩ rfl

/-- C9: `dnsMessageToJSON` returns a nil error on every message, so every
invocation that receives a response yields a result whose `Message` is
non-nil and equal to `SystemoutJSON`. -/
theorem C9_message_json :
    (∀ msg : Dns.Msg, ∃ j, Dns.dnsMessageToJSON msg = .ok j) ∧
    (∀ (e : Dns.Executor) (net : Dns.Net) (m : Dns.Msg) (rtt : Rat) (q : Nat),
      e.Server ≠ "" →
      Dns.stringToQType (if e.QType = "" then "A" else e.QType) = .ok q →
      net.udp = .ok (m, rtt) →
      ∃ r j, (Dns.runDecoded e net).outcome = .ok r ∧
        r.Message = some j ∧ r.SystemoutJSON = some j) := by
  constructor
  · intro msg
    exact ⟨_, rfl⟩
  · intro e net m rtt q hs hq hu
    simp only [Dns.runDecoded, Dns.applyDefaults, hq, hu, if_neg hs]
    by_cases ht : m.Truncated = true
    · simp only [ht, if_true]
      cases htc : net.tcp with
      | error msg => exact ⟨_, _, rfl, rfl, rfl⟩
      | ok p =>
        obtain ⟨tm, trtt⟩ := p
        by_cases htt : tm.Truncated = true
        · simp only [htt, if_true]
          exact ⟨_, _, rfl, rfl, rfl⟩
        · simp only [htt, if_false]
          exact ⟨_, _, rfl, rfl, rfl⟩
    · simp only [ht, if_false]
      exact ⟨_, _, rfl, rfl, rfl⟩

/-- C9 witness: a concrete successful exchange produces a non-nil `Message`
equal to `SystemoutJSON`. -/
theorem C9_message_json_witness :
    ∃ r j, (Dns.runDecoded ⟨"8.8.8.8:53", "example.com", "A", 5⟩
        ⟨.ok (⟨1, true, 0, false, false, true, true, false, false, false, 0, [], [], [], []⟩, 1),
         .error "y", 3⟩).outcome = .ok r ∧
      r.Message = some j ∧ r.SystemoutJSON = some j :=
  C9_message_json.2 ⟨"8.8.8.8:53", "example.com", "A", 5⟩
    ⟨.ok (⟨1, true, 0, false, false, true, true, false, false, false, 0, [], [], [], []⟩, 1),
     .error "y", 3⟩
    ⟨1, true, 0, false, false, true, true, false, false, false, 0, [], [], [], []⟩ 1 1
    (by decide) rfl rfl

/-- C10: every result returned with a nil error by the DNS `Run` echoes the
decoded and defaulted configuration in its `Query`, `QType` and `Server`
fields, on the soft-failure paths as well as on success. -/
theorem C10_result_echoes_config (e : Dns.Executor) (net : Dns.Net) (r : Dns.Result)
    (h : (Dns.runDecoded e net).outcome = .ok r) :
    r.Query = e.Query ∧ r.QType = (if e.QType = "" then "A" else e.QType) ∧
    r.Server = e.Server := by
  simp only [Dns.runDecoded, Dns.applyDefaults] at h
  repeat' split at h
  all_goals simp only [Dns.finishResult, Dns.dnsMessageToJSON] at h
  all_goals simp at h
  all_goals try subst h
  all_goals simp_all

/-- C10 witness: the soft-failure result for an invalid record type echoes
query, record type and server. -/
theorem C10_result_echoes_config_witness :
    ({ Query := "example.com", QType := "INVALID", Server := "8.8.8.8:53",
       Err := "unsupported DNS record type: INVALID",
       TimeSeconds := 2 } : Dns.Result).Query = "example.com" ∧
    ({ Query := "example.com", QType := "INVALID", Server := "8.8.8.8:53",
       Err := "unsupported DNS record type: INVALID",
       TimeSeconds := 2 } : Dns.Result).QType = "INVALID" ∧
    ({ Query := "example.com", QType := "INVALID", Server := "8.8.8.8:53",
       Err := "unsupported DNS record type: INVALID",
       TimeSeconds := 2 } : Dns.Result).Server = "8.8.8.8:53" :=
  C10_result_echoes_config ⟨"8.8.8.8:53", "example.com", "INVALID", 0⟩
    ⟨.error "x", .error "y", 2⟩
    { Query := "example.com", QType := "INVALID", Server := "8.8.8.8:53",
      Err := "unsupported DNS record type: INVALID", TimeSeconds := 2 }
    rfl
